import Mathlib

/-!
Verification of the viewport/gesture/rendering engine of the HDI-GridUI
repository (component `PropertyGrid`).  All numeric values are modelled as
exact rationals; the JavaScript floating-point operations are treated as
exact arithmetic.  Touch distances (computed with `Math.sqrt` in the source)
are supplied to the handlers as an explicit argument, related to the touch
points by the side condition `IsDistance` where a theorem depends on the
actual value.
-/

namespace HDIGrid

/-- Screen or client point (a pair of pixel coordinates). -/
structure Point where
  x : ℚ
  y : ℚ
deriving DecidableEq

/-- Layout box of the canvas element (`getBoundingClientRect`). -/
structure Rect where
  left : ℚ
  top : ℚ
  width : ℚ
  height : ℚ
deriving DecidableEq

/-- Grid placement of a property: world position and world-unit size
(field `gridPosition` of `Property` in the source). -/
structure GridPos where
  x : ℚ
  y : ℚ
  size : ℚ
deriving DecidableEq

/-- The part of a property record the engine consults.  `gridPosition` is
optional at runtime: `drawGrid` explicitly guards `!property.gridPosition`. -/
structure Property where
  id : String
  gridPosition : Option GridPos
  marketValue : ℚ
deriving DecidableEq

/-- Viewport state `{offsetX, offsetY, scale}`. -/
structure Viewport where
  offsetX : ℚ
  offsetY : ℚ
  scale : ℚ
deriving DecidableEq

/-- World-to-screen projection used throughout the component:
`x = world.x * scale + offsetX`, `y = world.y * scale + offsetY`. -/
def toScreenP (v : Viewport) (w : Point) : Point :=
  ⟨w.x * v.scale + v.offsetX, w.y * v.scale + v.offsetY⟩

/-- Screen-to-world conversion used in `handleMouseMove` while dragging a
property: `(screen - offset) / scale` componentwise. -/
def toWorldP (v : Viewport) (s : Point) : Point :=
  ⟨(s.x - v.offsetX) / v.scale, (s.y - v.offsetY) / v.scale⟩

/-- Axis-aligned bounding-box test of the hit-test lambdas in
`handleMouseDown`, `handleMouseMove`, `handleClick` and `handleTouchEnd`:
the point lies within the box of side `size * scale` centred on the
projected position. -/
def boxContains (v : Viewport) (pt : Point) (g : GridPos) : Bool :=
  let x := g.x * v.scale + v.offsetX
  let y := g.y * v.scale + v.offsetY
  let size := g.size * v.scale
  decide (x - size/2 ≤ pt.x) && decide (pt.x ≤ x + size/2) &&
    decide (y - size/2 ≤ pt.y) && decide (pt.y ≤ y + size/2)

/-- Boolean form of "this property's box contains the point"; a property
without a position contains no point. -/
def hitTestB (v : Viewport) (pt : Point) (p : Property) : Bool :=
  match p.gridPosition with
  | none => false
  | some g => boxContains v pt g

/-- Embedding of `propertiesToCheck.find(property => ...)` as used by the
hit tests: the predicate reads `property.gridPosition.x` without a guard,
so reaching a property whose `gridPosition` is absent raises a `TypeError`
(modelled as `Except.error`).  Otherwise the first property in iteration
order whose box contains the point is returned together with its position. -/
def findHit (ps : List Property) (pt : Point) (v : Viewport) :
    Except Unit (Option (Property × GridPos)) :=
  match ps with
  | [] => .ok none
  | p :: rest =>
    match p.gridPosition with
    | none => .error ()
    | some g => if boxContains v pt g then .ok (some (p, g)) else findHit rest pt v

/-- Modelled from the spec (section 4.3, Hit-Test Resolver), for comparison
with the source's `findHit`: iterate in draw order with last-drawn winning
on overlap, i.e. return the topmost matching marker. -/
def resolveTopmost (ps : List Property) (pt : Point) (v : Viewport) : Option Property :=
  ps.foldl (fun acc p => if hitTestB v pt p then some p else acc) none

/-- Abbreviated currency label drawn on large shapes: `$nM` for values of at
least one million, `$nK` otherwise (both remaining branches of the source's
ternary produce the `K` form). -/
inductive Label where
  | millions : ℤ → Label
  | thousands : ℤ → Label
deriving DecidableEq

/-- JavaScript `Math.round`: round half toward positive infinity. -/
def jsRound (q : ℚ) : ℤ := ⌊q + 1/2⌋

/-- Label text computation of `drawGrid`. -/
def displayValue (value : ℚ) : Label :=
  if 1000000 ≤ value then .millions (jsRound (value / 1000000))
  else .thousands (jsRound (value / 1000))

/-- One marker's contribution to a render pass: screen position, on-screen
size, highlight tier inputs, and the optional text label. -/
structure DrawnShape where
  x : ℚ
  y : ℚ
  size : ℚ
  isLead : Bool
  isSelected : Bool
  isHovered : Bool
  label : Option Label
deriving DecidableEq

/-- Per-marker step of `drawGrid`: skip markers without a position, project
to screen, apply the `size || 50` default, cull off-screen markers, resolve
highlight tier and shape class, and attach a label when `size > 30`. -/
def drawShape (leads : List Property) (selectedId hoveredId : Option String)
    (v : Viewport) (width height : ℚ) (p : Property) : Option DrawnShape :=
  match p.gridPosition with
  | none => none
  | some g =>
    let x := g.x * v.scale + v.offsetX
    let y := g.y * v.scale + v.offsetY
    let size := (if g.size = 0 then 50 else g.size) * v.scale
    if x < -size ∨ width + size < x ∨ y < -size ∨ height + size < y then none
    else some
      { x := x, y := y, size := size,
        isLead := leads.any (fun lead => lead.id == p.id),
        isSelected := decide (selectedId = some p.id),
        isHovered := decide (hoveredId = some p.id),
        label := if 30 < size then some (displayValue p.marketValue) else none }

/-- Marker list rendered by `drawGrid`: the leads alone when `showOnlyLeads`
holds, otherwise the leads followed by the properties. -/
def propertiesToShow (showOnlyLeads : Bool) (leads properties : List Property) :
    List Property :=
  if showOnlyLeads then leads else leads ++ properties

/-- Marker list consulted by the hit tests: the leads alone when
`showOnlyLeads` holds, otherwise the properties. -/
def propertiesToCheck (showOnlyLeads : Bool) (leads properties : List Property) :
    List Property :=
  if showOnlyLeads then leads else properties

/-- Marker pass of a `drawGrid` render: the drawn shapes in draw order. -/
def drawGrid (showOnlyLeads : Bool) (leads properties : List Property)
    (selectedId hoveredId : Option String) (v : Viewport) (width height : ℚ) :
    List DrawnShape :=
  (propertiesToShow showOnlyLeads leads properties).filterMap
    (drawShape leads selectedId hoveredId v width height)

/-- Squared euclidean distance between two touch points. -/
def distSq (p q : Point) : ℚ := (q.x - p.x)^2 + (q.y - p.y)^2

/-- Relation between two touch points and the value `getTouchDistance`
computes for them with `Math.sqrt`: a nonnegative `d` with
`d^2 = (dx)^2 + (dy)^2`. -/
def IsDistance (p q : Point) (d : ℚ) : Prop := 0 ≤ d ∧ d^2 = distSq p q

/-- Component-level mutable state of `PropertyGrid`: the viewport, the pan
flag with its anchor, the hover id, the stored pinch baseline distance, and
the marker-drag id with its grab offset. -/
structure EngineState where
  viewport : Viewport
  isDragging : Bool
  dragStart : Point
  hoveredProperty : Option String
  lastTouchDistance : ℚ
  isDraggingProperty : Option String
  propertyDragOffset : Point
deriving DecidableEq

/-- Initial component state: identity viewport, no active gesture. -/
def initState : EngineState :=
  { viewport := ⟨0, 0, 1⟩, isDragging := false, dragStart := ⟨0, 0⟩,
    hoveredProperty := none, lastTouchDistance := 0,
    isDraggingProperty := none, propertyDragOffset := ⟨0, 0⟩ }

/-- Immutable inputs of the component: the two marker lists, the
`showOnlyLeads` flag (default `true`), and whether an
`onLeadPositionUpdate` callback is registered. -/
structure Env where
  properties : List Property
  leads : List Property
  showOnlyLeads : Bool
  hasPositionCallback : Bool

/-- List the hit tests consult for this environment. -/
def Env.checkList (e : Env) : List Property :=
  propertiesToCheck e.showOnlyLeads e.leads e.properties

/-- JavaScript truthiness of the string-or-null `isDraggingProperty` field:
truthy exactly when present and non-empty. -/
def truthyId : Option String → Bool
  | some id => id ≠ ""
  | none => false

/-- Embedding of `handleMouseDown`: hit-test the canvas-relative point; on a
hit with the shift key held start a marker drag recording the grab offset,
otherwise start panning with anchor `client - offset`.  A `TypeError` inside
the hit test aborts the handler before any state update. -/
def handleMouseDown (env : Env) (s : EngineState) (client : Point) (rect : Rect)
    (shiftKey : Bool) : EngineState :=
  let mouse : Point := ⟨client.x - rect.left, client.y - rect.top⟩
  match findHit env.checkList mouse s.viewport with
  | .error _ => s
  | .ok r =>
    match r, shiftKey with
    | some (p, g), true =>
      { s with isDraggingProperty := some p.id,
               propertyDragOffset :=
                 ⟨mouse.x - (g.x * s.viewport.scale + s.viewport.offsetX),
                  mouse.y - (g.y * s.viewport.scale + s.viewport.offsetY)⟩ }
    | _, _ =>
      { s with isDragging := true,
               dragStart := ⟨client.x - s.viewport.offsetX,
                             client.y - s.viewport.offsetY⟩ }

/-- Pan-or-hover tail of `handleMouseMove` (the branches taken when no
marker drag is being reported): while panning, assign the offset directly
from the anchor; otherwise update the hover id from the hit test (aborting
without an update if the hit test raises). -/
def mouseMoveFallback (env : Env) (s : EngineState) (client mouse : Point) :
    EngineState × Option (String × Point) :=
  if s.isDragging then
    ({ s with viewport :=
        ⟨client.x - s.dragStart.x, client.y - s.dragStart.y, s.viewport.scale⟩ }, none)
  else
    match findHit env.checkList mouse s.viewport with
    | .error _ => (s, none)
    | .ok none => ({ s with hoveredProperty := none }, none)
    | .ok (some (p, _)) =>
      ({ s with hoveredProperty := if p.id = "" then none else some p.id }, none)

/-- Embedding of `handleMouseMove`: when a marker drag is active and a
position callback is registered, emit the marker id with world position
`((mouse - grabOffset) - offset) / scale` and leave the state unchanged;
otherwise pan or update hover. -/
def handleMouseMove (env : Env) (s : EngineState) (client : Point) (rect : Rect) :
    EngineState × Option (String × Point) :=
  let mouse : Point := ⟨client.x - rect.left, client.y - rect.top⟩
  match s.isDraggingProperty with
  | some id =>
    if id ≠ "" ∧ env.hasPositionCallback then
      (s, some (id, ⟨(mouse.x - s.propertyDragOffset.x - s.viewport.offsetX) / s.viewport.scale,
                     (mouse.y - s.propertyDragOffset.y - s.viewport.offsetY) / s.viewport.scale⟩))
    else mouseMoveFallback env s client mouse
  | none => mouseMoveFallback env s client mouse

/-- Embedding of `handleMouseUp` (also bound to mouse-leave): clear both the
pan flag and the marker-drag id. -/
def handleMouseUp (s : EngineState) : EngineState :=
  { s with isDragging := false, isDraggingProperty := none }

/-- Embedding of `handleClick`: no-op while panning or marker-dragging;
otherwise hit-test the click point and emit the found marker through
`onPropertySelect` (no event at all when nothing is hit, and an abort when
the hit test raises). -/
def handleClick (env : Env) (s : EngineState) (client : Point) (rect : Rect) :
    Option Property :=
  if s.isDragging || truthyId s.isDraggingProperty then none
  else
    match findHit env.checkList ⟨client.x - rect.left, client.y - rect.top⟩ s.viewport with
    | .error _ => none
    | .ok r => r.map (fun pr => pr.1)

/-- Embedding of `handleTouchStart` with the current touch list; `d` is the
`getTouchDistance` value for the first two touches (consulted only in the
two-touch branch).  One touch arms panning, two touches store the pinch
baseline and disarm panning, any other count changes nothing. -/
def handleTouchStart (s : EngineState) (touches : List Point) (d : ℚ) : EngineState :=
  match touches with
  | [t] =>
    { s with isDragging := true,
             dragStart := ⟨t.x - s.viewport.offsetX, t.y - s.viewport.offsetY⟩ }
  | [_, _] => { s with lastTouchDistance := d, isDragging := false }
  | _ => s

/-- Embedding of `handleTouchMove`; `d` is the `getTouchDistance` value for
the first two touches.  One touch while panning assigns the offset from the
anchor; two touches apply the pinch frame: when the stored baseline is
positive, clamp `scale * (d / baseline)` into `[0.3, 3]` and shift the
offset by `-(midpoint - canvasCenter) * (factor - 1) * 0.1`, then in every
two-touch frame store `d` as the new baseline. -/
def handleTouchMove (s : EngineState) (touches : List Point) (d : ℚ) (rect : Rect) :
    EngineState :=
  match touches with
  | [t] =>
    if s.isDragging then
      { s with viewport :=
          ⟨t.x - s.dragStart.x, t.y - s.dragStart.y, s.viewport.scale⟩ }
    else s
  | [t1, t2] =>
    let s1 :=
      if 0 < s.lastTouchDistance then
        let scaleFactor := d / s.lastTouchDistance
        let newScale := max (3/10) (min 3 (s.viewport.scale * scaleFactor))
        let centerX := (t1.x + t2.x) / 2
        let centerY := (t1.y + t2.y) / 2
        let offsetAdjustX := (centerX - rect.width / 2) * (scaleFactor - 1) * (1/10)
        let offsetAdjustY := (centerY - rect.height / 2) * (scaleFactor - 1) * (1/10)
        { s with viewport := ⟨s.viewport.offsetX - offsetAdjustX,
                              s.viewport.offsetY - offsetAdjustY, newScale⟩ }
      else s
    { s1 with lastTouchDistance := d }
  | _ => s

/-- Embedding of `handleTouchEnd` with the remaining and the changed touch
lists.  With no touch remaining: a single changed touch while panning is
treated as a tap (hit-test and emit the found marker), then the pan flag and
the baseline are cleared — unless the hit test raises, which aborts before
the clears.  With one touch remaining only the baseline is cleared. -/
def handleTouchEnd (env : Env) (s : EngineState) (remaining changed : List Point)
    (rect : Rect) : EngineState × Option Property :=
  match remaining with
  | [] =>
    if s.isDragging then
      match changed with
      | [t] =>
        match findHit env.checkList ⟨t.x - rect.left, t.y - rect.top⟩ s.viewport with
        | .error _ => (s, none)
        | .ok r =>
          ({ s with isDragging := false, lastTouchDistance := 0 }, r.map (fun pr => pr.1))
      | _ => ({ s with isDragging := false, lastTouchDistance := 0 }, none)
    else ({ s with isDragging := false, lastTouchDistance := 0 }, none)
  | [_] => ({ s with lastTouchDistance := 0 }, none)
  | _ => (s, none)

/-- Embedding of the `zoomIn` control: `scale := min (scale * 1.2) 3`. -/
def zoomIn (s : EngineState) : EngineState :=
  { s with viewport := { s.viewport with scale := min (s.viewport.scale * (6/5)) 3 } }

/-- Embedding of the `zoomOut` control: `scale := max (scale / 1.2) 0.3`. -/
def zoomOut (s : EngineState) : EngineState :=
  { s with viewport := { s.viewport with scale := max (s.viewport.scale / (6/5)) (3/10) } }

/-- Embedding of the `resetView` control. -/
def resetView (s : EngineState) : EngineState :=
  { s with viewport := ⟨0, 0, 1⟩ }

/-- One input event of the engine: a raw mouse or touch handler invocation
or a zoom-control command.  Touch events carry the `getTouchDistance` value
of their first two touches as `d`. -/
inductive Event where
  | mouseDown (client : Point) (rect : Rect) (shift : Bool)
  | mouseMove (client : Point) (rect : Rect)
  | mouseUp
  | click (client : Point) (rect : Rect)
  | touchStart (touches : List Point) (d : ℚ)
  | touchMove (touches : List Point) (d : ℚ) (rect : Rect)
  | touchEnd (remaining changed : List Point) (rect : Rect)
  | zoomInCmd
  | zoomOutCmd
  | resetCmd

/-- State transition of one event (`handleClick` emits but never mutates). -/
def step (env : Env) (s : EngineState) : Event → EngineState
  | .mouseDown c r sh => handleMouseDown env s c r sh
  | .mouseMove c r => (handleMouseMove env s c r).1
  | .mouseUp => handleMouseUp s
  | .click _ _ => s
  | .touchStart t d => handleTouchStart s t d
  | .touchMove t d r => handleTouchMove s t d r
  | .touchEnd rem ch r => (handleTouchEnd env s rem ch r).1
  | .zoomInCmd => zoomIn s
  | .zoomOutCmd => zoomOut s
  | .resetCmd => resetView s

/-- Run a sequence of events from a state. -/
def run (env : Env) (s : EngineState) (evs : List Event) : EngineState :=
  evs.foldl (step env) s

/-- Host-side selection update (App.tsx): `handlePropertySelect` assigns the
emitted marker to the selection; no code path driven by a canvas tap or
click ever clears the selection, so with no emission it is unchanged. -/
def applySelection (sel : Option Property) (emitted : Option Property) : Option Property :=
  match emitted with
  | some p => some p
  | none => sel

/-- Identity viewport, the initial one. -/
def vId : Viewport := ⟨0, 0, 1⟩

/-- Position of the scenario marker `A`: world (100,100), size 50. -/
def gA : GridPos := ⟨100, 100, 50⟩

/-- Scenario marker `A`. -/
def markerA : Property := ⟨"A", some gA, 450000⟩

/-- A second marker overlapping `A`, drawn after it. -/
def markerB : Property := ⟨"B", some ⟨110, 100, 50⟩, 250000⟩

/-- A marker with no `gridPosition`. -/
def markerM : Property := ⟨"M", none, 0⟩

/-- A canvas layout box at the client origin. -/
def rect0 : Rect := ⟨0, 0, 800, 600⟩

/-- A 300-by-300 canvas layout box at the client origin. -/
def rect3 : Rect := ⟨0, 0, 300, 300⟩

/-- Environment with the single lead `A`, `showOnlyLeads` at its default. -/
def envA : Env := ⟨[], [markerA], true, false⟩

/-- Environment with leads `A` and `B` and a registered position callback. -/
def envAB : Env := ⟨[], [markerA, markerB], true, true⟩

end HDIGrid

namespace HDIGrid

/-- Claim C9: with `toScreen(w) = w * scale + offset` and
`toWorld(s) = (s - offset) / scale` componentwise, every viewport whose
scale lies in `[0.3, 3.0]` (hence is nonzero) satisfies
`toScreen(toWorld(p)) = p` for every screen point `p`, exactly in rational
arithmetic. -/
theorem C9_roundtrip (v : Viewport) (p : Point)
    (h1 : 3/10 ≤ v.scale) (h2 : v.scale ≤ 3) :
    toScreenP v (toWorldP v p) = p := by
  have hs : v.scale ≠ 0 := by
    intro h
    rw [h] at h1
    norm_num at h1
  cases p with
  | mk px py =>
    simp only [toScreenP, toWorldP, Point.mk.injEq]
    constructor <;> field_simp

/-- Witness for C9 at the identity viewport and the point (7, 9). -/
theorem C9_roundtrip_witness :
    ((3:ℚ)/10 ≤ vId.scale ∧ vId.scale ≤ 3) ∧
      toScreenP vId (toWorldP vId ⟨7, 9⟩) = ⟨7, 9⟩ :=
  ⟨⟨by norm_num [vId], by norm_num [vId]⟩,
    C9_roundtrip vId ⟨7, 9⟩ (by norm_num [vId]) (by norm_num [vId])⟩

/-- Counterexample to claim C1: markers `A` then `B` overlap at screen point
(105, 100) under the identity viewport; `B` is drawn after `A` and is
therefore topmost, but the hit test (a `find` over the list) returns the
first match `A`, not the topmost marker `B` that the claim requires. -/
theorem C1_counterexample :
    findHit [markerA, markerB] ⟨105, 100⟩ vId = .ok (some (markerA, gA)) ∧
    resolveTopmost [markerA, markerB] ⟨105, 100⟩ vId = some markerB ∧
    markerA ≠ markerB := by
  refine ⟨?_, ?_, ?_⟩
  · norm_num [findHit, boxContains, markerA, gA, vId]
  · norm_num [resolveTopmost, hitTestB, boxContains, markerA, markerB, gA, vId]
  · simp [markerA, markerB]

/-- Claim C1 as amended: when every marker has a position, the hit test
used for click, hover, and tap resolution never raises and returns, among
all markers whose axis-aligned box of side `size*scale` centred on the
projected position contains the point, the FIRST marker in draw order
(bottom-most on overlap, since `find` scans in iteration order), and
returns null exactly when no marker's box contains the point. -/
theorem C1_hit_test_first_match (ps : List Property) (pt : Point) (v : Viewport)
    (hall : ∀ p ∈ ps, (p.gridPosition).isSome = true) :
    (∃ r, findHit ps pt v = .ok r) ∧
    (findHit ps pt v = .ok none ↔ ∀ p ∈ ps, hitTestB v pt p = false) ∧
    (∀ p g, findHit ps pt v = .ok (some (p, g)) →
      p.gridPosition = some g ∧ hitTestB v pt p = true ∧
      ∃ l₁ l₂, ps = l₁ ++ p :: l₂ ∧ ∀ q ∈ l₁, hitTestB v pt q = false) := by
  induction ps with
  | nil =>
    refine ⟨⟨none, rfl⟩, by simp [findHit], ?_⟩
    intro p g h
    simp [findHit] at h
  | cons hd tl ih =>
    have hhd : (hd.gridPosition).isSome = true := hall hd (by simp)
    obtain ⟨ghd, hghd⟩ := Option.isSome_iff_exists.mp hhd
    have htl : ∀ p ∈ tl, (p.gridPosition).isSome = true :=
      fun p hp => hall p (by simp [hp])
    obtain ⟨ih1, ih2, ih3⟩ := ih htl
    by_cases hbox : boxContains v pt ghd = true
    · have heq : findHit (hd :: tl) pt v = .ok (some (hd, ghd)) := by
        simp [findHit, hghd, hbox]
      refine ⟨⟨some (hd, ghd), heq⟩, ?_, ?_⟩
      · rw [heq]
        constructor
        · intro h
          exact absurd h (by simp)
        · intro h
          have hfalse := h hd (by simp)
          simp only [hitTestB, hghd] at hfalse
          rw [hfalse] at hbox
          exact absurd hbox (by simp)
      · intro p g h
        rw [heq] at h
        have hp : hd = p ∧ ghd = g := by simpa using h
        obtain ⟨rfl, rfl⟩ := hp
        refine ⟨hghd, ?_, [], tl, rfl, by simp⟩
        simp only [hitTestB, hghd]
        exact hbox
    · have heq : findHit (hd :: tl) pt v = findHit tl pt v := by
        simp [findHit, hghd, hbox]
      have hhdfalse : hitTestB v pt hd = false := by
        rw [hitTestB, hghd]
        simpa using hbox
      refine ⟨heq ▸ ih1, ?_, ?_⟩
      · rw [heq, ih2]
        simp [hhdfalse]
      · intro p g h
        rw [heq] at h
        obtain ⟨hpos, hhit, l₁, l₂, hsplit, hfalse⟩ := ih3 p g h
        refine ⟨hpos, hhit, hd :: l₁, l₂, by simp [hsplit], ?_⟩
        intro q hq
        rcases List.mem_cons.mp hq with hq | hq
        · exact hq ▸ hhdfalse
        · exact hfalse q hq

/-- Witness for the amended C1 on the list `[A, B]` at point (105, 100). -/
theorem C1_hit_test_first_match_witness :
    (∀ p ∈ [markerA, markerB], (p.gridPosition).isSome = true) ∧
    ((∃ r, findHit [markerA, markerB] ⟨105, 100⟩ vId = .ok r) ∧
     (findHit [markerA, markerB] ⟨105, 100⟩ vId = .ok none ↔
        ∀ p ∈ [markerA, markerB], hitTestB vId ⟨105, 100⟩ p = false) ∧
     (∀ p g, findHit [markerA, markerB] ⟨105, 100⟩ vId = .ok (some (p, g)) →
        p.gridPosition = some g ∧ hitTestB vId ⟨105, 100⟩ p = true ∧
        ∃ l₁ l₂, [markerA, markerB] = l₁ ++ p :: l₂ ∧
          ∀ q ∈ l₁, hitTestB vId ⟨105, 100⟩ q = false)) :=
  ⟨by simp [markerA, markerB],
    C1_hit_test_first_match [markerA, markerB] ⟨105, 100⟩ vId
      (by simp [markerA, markerB])⟩

/-- Counterexample to claim C2: in the scenario (marker `A` at world
(100,100), size 50, identity viewport), a tap at screen (400,400) emits no
event at all — there is no clear-selection emission — and a previously
selected `A` therefore remains selected instead of the selection becoming
none. -/
theorem C2_counterexample :
    (handleTouchEnd envA (handleTouchStart initState [⟨400, 400⟩] 0)
        [] [⟨400, 400⟩] rect0).2 = none ∧
    applySelection (some markerA)
      (handleTouchEnd envA (handleTouchStart initState [⟨400, 400⟩] 0)
        [] [⟨400, 400⟩] rect0).2 = some markerA := by
  have h : (handleTouchEnd envA (handleTouchStart initState [⟨400, 400⟩] 0)
      [] [⟨400, 400⟩] rect0).2 = none := by
    norm_num [handleTouchEnd, handleTouchStart, initState, envA, Env.checkList,
      propertiesToCheck, findHit, boxContains, markerA, gA, rect0]
  exact ⟨h, by rw [h]; rfl⟩

/-- Claim C2 as amended: in the scenario of marker `A` at world (100,100)
with size 50 under the identity viewport, a tap at screen (100,100) emits a
selection event for `A`; a tap at screen (400,400) emits no selection event
and leaves any prior selection unchanged (the engine has no clear-selection
event). -/
theorem C2_tap_selection (sel : Option Property) :
    (handleTouchEnd envA (handleTouchStart initState [⟨100, 100⟩] 0)
        [] [⟨100, 100⟩] rect0).2 = some markerA ∧
    (handleTouchEnd envA (handleTouchStart initState [⟨400, 400⟩] 0)
        [] [⟨400, 400⟩] rect0).2 = none ∧
    applySelection sel
      (handleTouchEnd envA (handleTouchStart initState [⟨400, 400⟩] 0)
        [] [⟨400, 400⟩] rect0).2 = sel := by
  have h4 : (handleTouchEnd envA (handleTouchStart initState [⟨400, 400⟩] 0)
      [] [⟨400, 400⟩] rect0).2 = none := by
    norm_num [handleTouchEnd, handleTouchStart, initState, envA, Env.checkList,
      propertiesToCheck, findHit, boxContains, markerA, gA, rect0]
  refine ⟨?_, h4, by rw [h4]; rfl⟩
  norm_num [handleTouchEnd, handleTouchStart, initState, envA, Env.checkList,
    propertiesToCheck, findHit, boxContains, markerA, gA, rect0]

/-- Clamp of the pinch scale into `[0.3, 3]`
(`Math.max(0.3, Math.min(3, x))`). -/
def clampScale (x : ℚ) : ℚ := max (3/10) (min 3 x)

/-- Counterexample to claim C3: identity viewport (scale 1 ∈ [0.3, 3.0]),
stored baseline 100 > 0, touches at (0,0) and (200,0) whose distance is
exactly 200, canvas box 300 by 300.  The pinch midpoint (100, 0) lies over
world (100, 0) before the frame but over world (47.5, -7.5) after it: the
zoom is not anchored at the focal point. -/
theorem C3_counterexample :
    IsDistance ⟨0, 0⟩ ⟨200, 0⟩ 200 ∧
    (0:ℚ) < 100 ∧ (3:ℚ)/10 ≤ 1 ∧ (1:ℚ) ≤ 3 ∧
    toWorldP (handleTouchMove { initState with lastTouchDistance := 100 }
        [⟨0, 0⟩, ⟨200, 0⟩] 200 rect3).viewport ⟨100, 0⟩
      ≠ toWorldP initState.viewport ⟨100, 0⟩ := by
  refine ⟨⟨by norm_num, by norm_num [distSq]⟩, by norm_num, by norm_num,
    by norm_num, ?_⟩
  norm_num [handleTouchMove, initState, toWorldP, rect3, Point.mk.injEq]

/-- Claim C3 as amended: a two-pointer pinch move frame with positive
stored baseline sets the scale to `clampScale (scale * factor)` with
`factor = d / baseline` and shifts the offset by the damped amount
`(midpoint - canvasCenter) * (factor - 1) * 0.1` — it does not re-anchor
the offset around the midpoint; `toWorld` of the midpoint is preserved in
particular only in degenerate frames such as `factor = 1`, where the
viewport is left entirely unchanged. -/
theorem C3_pinch_frame (s : EngineState) (t1 t2 : Point) (d : ℚ) (rect : Rect)
    (h : 0 < s.lastTouchDistance) :
    handleTouchMove s [t1, t2] d rect =
      { s with
          viewport :=
            ⟨s.viewport.offsetX -
               ((t1.x + t2.x)/2 - rect.width/2) * (d / s.lastTouchDistance - 1) * (1/10),
             s.viewport.offsetY -
               ((t1.y + t2.y)/2 - rect.height/2) * (d / s.lastTouchDistance - 1) * (1/10),
             clampScale (s.viewport.scale * (d / s.lastTouchDistance))⟩,
          lastTouchDistance := d } ∧
    (d = s.lastTouchDistance → 3/10 ≤ s.viewport.scale → s.viewport.scale ≤ 3 →
      (handleTouchMove s [t1, t2] d rect).viewport = s.viewport) := by
  have hfact : handleTouchMove s [t1, t2] d rect =
      { s with
          viewport :=
            ⟨s.viewport.offsetX -
               ((t1.x + t2.x)/2 - rect.width/2) * (d / s.lastTouchDistance - 1) * (1/10),
             s.viewport.offsetY -
               ((t1.y + t2.y)/2 - rect.height/2) * (d / s.lastTouchDistance - 1) * (1/10),
             clampScale (s.viewport.scale * (d / s.lastTouchDistance))⟩,
          lastTouchDistance := d } := by
    simp [handleTouchMove, h, clampScale]
  refine ⟨hfact, ?_⟩
  intro hd h1 h2
  rw [hfact]
  have hne : s.lastTouchDistance ≠ 0 := ne_of_gt h
  have hratio : d / s.lastTouchDistance = 1 := by
    rw [hd]
    field_simp
  rw [hratio]
  have hclamp : clampScale (s.viewport.scale * 1) = s.viewport.scale := by
    rw [mul_one, clampScale, min_eq_right h2, max_eq_right h1]
  rw [hclamp]
  cases hv : s.viewport with
  | mk ox oy sc => simp

/-- Witness for the amended C3: a concrete pinch frame with baseline 100,
touches (0,0) and (200,0), distance 200. -/
theorem C3_pinch_frame_witness :
    (0:ℚ) < ({ initState with lastTouchDistance := 100 } : EngineState).lastTouchDistance ∧
    (handleTouchMove { initState with lastTouchDistance := 100 }
        [⟨0, 0⟩, ⟨200, 0⟩] 200 rect3 =
      { ({ initState with lastTouchDistance := 100 } : EngineState) with
          viewport :=
            ⟨({ initState with lastTouchDistance := 100 } : EngineState).viewport.offsetX -
               ((0 + 200)/2 - rect3.width/2) * (200 / 100 - 1) * (1/10),
             ({ initState with lastTouchDistance := 100 } : EngineState).viewport.offsetY -
               ((0 + 0)/2 - rect3.height/2) * (200 / 100 - 1) * (1/10),
             clampScale (({ initState with lastTouchDistance := 100 } : EngineState).viewport.scale * (200 / 100))⟩,
          lastTouchDistance := 200 } ∧
      (200 = ({ initState with lastTouchDistance := 100 } : EngineState).lastTouchDistance →
        3/10 ≤ ({ initState with lastTouchDistance := 100 } : EngineState).viewport.scale →
        ({ initState with lastTouchDistance := 100 } : EngineState).viewport.scale ≤ 3 →
        (handleTouchMove { initState with lastTouchDistance := 100 }
            [⟨0, 0⟩, ⟨200, 0⟩] 200 rect3).viewport =
          ({ initState with lastTouchDistance := 100 } : EngineState).viewport)) :=
  ⟨by norm_num [initState],
    C3_pinch_frame { initState with lastTouchDistance := 100 }
      ⟨0, 0⟩ ⟨200, 0⟩ 200 rect3 (by norm_num [initState])⟩

/-- Counterexample to claim C4: the marker `M` has no position; rendering
skips it (no shape is produced) but the hit test raises a `TypeError`
instead of skipping it and completing normally. -/
theorem C4_counterexample :
    findHit [markerM] ⟨0, 0⟩ vId = .error () ∧
    drawGrid true [markerM] [] none none vId 800 600 = [] := by
  constructor
  · simp [findHit, markerM]
  · simp [drawGrid, propertiesToShow, drawShape, markerM]

/-- Claim C4 as amended: a marker with no position is skipped by rendering
(it contributes no shape and the rest of the pass proceeds normally), but
the hit test used on mouse-down, hover, click, and tap does not skip it:
reaching such a marker raises a `TypeError` and no marker is resolved. -/
theorem C4_missing_position (m : Property) (rest props leads : List Property)
    (sel hov : Option String) (v : Viewport) (w hgt : ℚ) (pt : Point)
    (hm : m.gridPosition = none) :
    findHit (m :: rest) pt v = .error () ∧
    drawShape leads sel hov v w hgt m = none ∧
    drawGrid true (m :: rest) props sel hov v w hgt
      = rest.filterMap (drawShape (m :: rest) sel hov v w hgt) := by
  refine ⟨?_, ?_, ?_⟩
  · simp [findHit, hm]
  · simp [drawShape, hm]
  · simp [drawGrid, propertiesToShow, drawShape, hm]

/-- Witness for the amended C4 at the position-less marker `M`. -/
theorem C4_missing_position_witness :
    markerM.gridPosition = none ∧
    (findHit [markerM, markerA] ⟨0, 0⟩ vId = .error () ∧
     drawShape [markerA] none none vId 800 600 markerM = none ∧
     drawGrid true [markerM, markerA] [] none none vId 800 600
       = [markerA].filterMap (drawShape [markerM, markerA] none none vId 800 600)) :=
  ⟨by simp [markerM],
    C4_missing_position markerM [markerA] [] [markerA] none none vId 800 600
      ⟨0, 0⟩ (by simp [markerM])⟩

/-- A mouse-down never changes the viewport. -/
theorem handleMouseDown_viewport (env : Env) (s : EngineState) (client : Point)
    (rect : Rect) (shift : Bool) :
    (handleMouseDown env s client rect shift).viewport = s.viewport := by
  simp only [handleMouseDown]
  split
  · rfl
  · split <;> rfl

/-- The pan-or-hover tail of a mouse move never changes the scale. -/
theorem mouseMoveFallback_scale (env : Env) (s : EngineState) (client mouse : Point) :
    ((mouseMoveFallback env s client mouse).1).viewport.scale = s.viewport.scale := by
  simp only [mouseMoveFallback]
  split
  · rfl
  · split <;> rfl

/-- A mouse move never changes the scale. -/
theorem handleMouseMove_scale (env : Env) (s : EngineState) (client : Point)
    (rect : Rect) :
    ((handleMouseMove env s client rect).1).viewport.scale = s.viewport.scale := by
  unfold handleMouseMove
  cases s.isDraggingProperty with
  | none => exact mouseMoveFallback_scale env s client _
  | some id =>
    by_cases h : id ≠ "" ∧ env.hasPositionCallback
    · simp [h]
    · simp [h]
      exact mouseMoveFallback_scale env s client _

/-- A touch start never changes the viewport. -/
theorem handleTouchStart_viewport (s : EngineState) (touches : List Point) (d : ℚ) :
    (handleTouchStart s touches d).viewport = s.viewport := by
  unfold handleTouchStart
  rcases touches with _ | ⟨t, _ | ⟨t2, _ | ⟨t3, rest⟩⟩⟩ <;> rfl

/-- A touch end never changes the viewport. -/
theorem handleTouchEnd_viewport (env : Env) (s : EngineState)
    (remaining changed : List Point) (rect : Rect) :
    ((handleTouchEnd env s remaining changed rect).1).viewport = s.viewport := by
  simp only [handleTouchEnd]
  split
  · split
    · split
      · split <;> rfl
      · rfl
    · rfl
  · rfl
  · rfl

/-- A touch move keeps the scale within `[0.3, 3]`: a pan frame or a guarded
frame leaves it unchanged, and a pinch frame re-clamps it. -/
theorem handleTouchMove_scale_bounds (s : EngineState) (touches : List Point)
    (d : ℚ) (rect : Rect) (h1 : 3/10 ≤ s.viewport.scale) (h2 : s.viewport.scale ≤ 3) :
    3/10 ≤ (handleTouchMove s touches d rect).viewport.scale ∧
      (handleTouchMove s touches d rect).viewport.scale ≤ 3 := by
  unfold handleTouchMove
  rcases touches with _ | ⟨t, _ | ⟨t2, _ | ⟨t3, rest⟩⟩⟩
  · exact ⟨h1, h2⟩
  · by_cases h : s.isDragging <;> simp [h] <;> exact ⟨h1, h2⟩
  · by_cases h : 0 < s.lastTouchDistance
    · simp only [h, if_true]
      refine ⟨le_max_left _ _, ?_⟩
      exact max_le (by norm_num) (min_le_left _ _)
    · simp only [h, if_false]
      exact ⟨h1, h2⟩
  · exact ⟨h1, h2⟩

/-- The zoom-in control keeps the scale within `[0.3, 3]`. -/
theorem zoomIn_scale_bounds (s : EngineState)
    (h1 : 3/10 ≤ s.viewport.scale) (h2 : s.viewport.scale ≤ 3) :
    3/10 ≤ (zoomIn s).viewport.scale ∧ (zoomIn s).viewport.scale ≤ 3 := by
  unfold zoomIn
  constructor
  · simp only
    refine le_min ?_ (by norm_num)
    nlinarith
  · exact min_le_right _ _

/-- The zoom-out control keeps the scale within `[0.3, 3]`. -/
theorem zoomOut_scale_bounds (s : EngineState)
    (h1 : 3/10 ≤ s.viewport.scale) (h2 : s.viewport.scale ≤ 3) :
    3/10 ≤ (zoomOut s).viewport.scale ∧ (zoomOut s).viewport.scale ≤ 3 := by
  unfold zoomOut
  constructor
  · exact le_max_right _ _
  · simp only
    refine max_le ?_ (by norm_num)
    rw [div_le_iff (by norm_num)]
    nlinarith

/-- Every event of the engine keeps the scale within `[0.3, 3]`. -/
theorem step_scale_bounds (env : Env) (s : EngineState) (ev : Event)
    (h1 : 3/10 ≤ s.viewport.scale) (h2 : s.viewport.scale ≤ 3) :
    3/10 ≤ (step env s ev).viewport.scale ∧ (step env s ev).viewport.scale ≤ 3 := by
  cases ev with
  | mouseDown c r sh =>
    rw [step, handleMouseDown_viewport]
    exact ⟨h1, h2⟩
  | mouseMove c r =>
    rw [step, handleMouseMove_scale]
    exact ⟨h1, h2⟩
  | mouseUp => exact ⟨h1, h2⟩
  | click c r => exact ⟨h1, h2⟩
  | touchStart t d =>
    rw [step, handleTouchStart_viewport]
    exact ⟨h1, h2⟩
  | touchMove t d r => exact handleTouchMove_scale_bounds s t d r h1 h2
  | touchEnd rem ch r =>
    rw [step, handleTouchEnd_viewport]
    exact ⟨h1, h2⟩
  | zoomInCmd => exact zoomIn_scale_bounds s h1 h2
  | zoomOutCmd => exact zoomOut_scale_bounds s h1 h2
  | resetCmd => exact ⟨by norm_num [step, resetView], by norm_num [step, resetView]⟩

/-- Claim C5: starting from the initial viewport `{0, 0, 1}`, after any
sequence of zoom-in commands, zoom-out commands, pinch frames, pan moves,
resets (and any other engine events), the scale satisfies
`0.3 ≤ scale ≤ 3.0`. -/
theorem C5_scale_clamp (env : Env) (evs : List Event) :
    3/10 ≤ (run env initState evs).viewport.scale ∧
      (run env initState evs).viewport.scale ≤ 3 := by
  suffices h : ∀ s : EngineState, 3/10 ≤ s.viewport.scale → s.viewport.scale ≤ 3 →
      3/10 ≤ (run env s evs).viewport.scale ∧ (run env s evs).viewport.scale ≤ 3 by
    exact h initState (by norm_num [initState]) (by norm_num [initState])
  induction evs with
  | nil =>
    intro s h1 h2
    exact ⟨h1, h2⟩
  | cons ev rest ih =>
    intro s h1 h2
    obtain ⟨g1, g2⟩ := step_scale_bounds env s ev h1 h2
    exact ih (step env s ev) g1 g2

/-- A touch start on three or more touches changes nothing. -/
theorem handleTouchStart_big (s : EngineState) (touches : List Point) (d : ℚ)
    (h : 3 ≤ touches.length) : handleTouchStart s touches d = s := by
  rcases touches with _ | ⟨a, _ | ⟨b, _ | ⟨c, r⟩⟩⟩
  · simp at h
  · simp at h
  · simp at h
  · rfl

/-- No touch handler ever touches the marker-drag state. -/
theorem touch_handlers_dragProp (s : EngineState) (env : Env)
    (touches remaining changed : List Point) (d : ℚ) (rect : Rect) :
    (handleTouchStart s touches d).isDraggingProperty = s.isDraggingProperty ∧
    (handleTouchMove s touches d rect).isDraggingProperty = s.isDraggingProperty ∧
    ((handleTouchEnd env s remaining changed rect).1).isDraggingProperty
      = s.isDraggingProperty := by
  refine ⟨?_, ?_, ?_⟩
  · unfold handleTouchStart
    rcases touches with _ | ⟨a, _ | ⟨b, _ | ⟨c, r⟩⟩⟩ <;> rfl
  · rcases touches with _ | ⟨a, _ | ⟨b, _ | ⟨c, r⟩⟩⟩
    · rfl
    · simp only [handleTouchMove]
      split <;> rfl
    · simp only [handleTouchMove]
      split <;> rfl
    · rfl
  · simp only [handleTouchEnd]
    split
    · split
      · split
        · split <;> rfl
        · rfl
      · rfl
    · rfl
    · rfl

/-- A two-touch move frame keeps the pan flag and the marker-drag state and
stores `d` as the new pinch baseline. -/
theorem handleTouchMove_two_flags (s : EngineState) (t1 t2 : Point) (d : ℚ)
    (rect : Rect) :
    (handleTouchMove s [t1, t2] d rect).isDragging = s.isDragging ∧
    (handleTouchMove s [t1, t2] d rect).lastTouchDistance = d := by
  simp only [handleTouchMove]
  split <;> simp

/-- A one-touch move frame changes the viewport at most. -/
theorem handleTouchMove_one_flags (s : EngineState) (t : Point) (d : ℚ)
    (rect : Rect) :
    (handleTouchMove s [t] d rect).isDragging = s.isDragging ∧
    (handleTouchMove s [t] d rect).lastTouchDistance = s.lastTouchDistance := by
  simp only [handleTouchMove]
  split <;> simp

/-- Well-formed touch interaction traces of the component, from the initial
state: the list tracks the fingers currently on the screen, and each
finger-down, move, and finger-lift invokes the corresponding handler with
the resulting touch lists.  Distance arguments `d` are left unconstrained,
which only enlarges the set of reachable states: every actual
`getTouchDistance` value is covered. -/
inductive TouchTrace (env : Env) : List Point → EngineState → Prop where
  | init : TouchTrace env [] initState
  | down (fingers : List Point) (s : EngineState) (p : Point) (d : ℚ)
      (h : TouchTrace env fingers s) :
      TouchTrace env (fingers ++ [p]) (handleTouchStart s (fingers ++ [p]) d)
  | move (fingers : List Point) (s : EngineState) (fingers2 : List Point) (d : ℚ)
      (rect : Rect) (h : TouchTrace env fingers s)
      (hlen : fingers2.length = fingers.length) :
      TouchTrace env fingers2 (handleTouchMove s fingers2 d rect)
  | lift (fingers : List Point) (s : EngineState) (remaining changed : List Point)
      (rect : Rect) (h : TouchTrace env fingers s)
      (hlt : remaining.length < fingers.length)
      (hch : changed.length + remaining.length = fingers.length) :
      TouchTrace env remaining (handleTouchEnd env s remaining changed rect).1

/-- Inductive gesture-mode invariant of touch traces: panning implies a
cleared pinch baseline, two or more fingers imply panning is off, no
fingers imply a cleared baseline, and touch input never arms a marker
drag. -/
def ModeInv (fingers : List Point) (s : EngineState) : Prop :=
  (s.isDragging = true → s.lastTouchDistance = 0) ∧
  (2 ≤ fingers.length → s.isDragging = false) ∧
  (fingers.length = 0 → s.lastTouchDistance = 0) ∧
  s.isDraggingProperty = none

/-- The gesture-mode invariant holds in every touch-reachable state. -/
theorem touchTrace_inv (env : Env) (fingers : List Point) (s : EngineState)
    (h : TouchTrace env fingers s) : ModeInv fingers s := by
  induction h with
  | init =>
    exact ⟨fun _ => rfl, fun h => rfl, fun _ => rfl, rfl⟩
  | down fingers s p d h ih =>
    obtain ⟨j1, j2, j3, j4⟩ := ih
    have j4new : (handleTouchStart s (fingers ++ [p]) d).isDraggingProperty = none :=
      (touch_handlers_dragProp s env (fingers ++ [p]) [] [] d rect0).1.trans j4
    rcases fingers with _ | ⟨q, _ | ⟨q2, qrest⟩⟩
    · refine ⟨?_, ?_, ?_, j4new⟩
      · intro _
        simp only [List.nil_append, handleTouchStart]
        exact j3 rfl
      · intro hlen
        simp at hlen
      · intro hlen
        simp at hlen
    · refine ⟨?_, ?_, ?_, j4new⟩
      · intro hd
        simp only [List.cons_append, List.nil_append, handleTouchStart] at hd
        exact absurd hd (by decide)
      · intro _
        simp only [List.cons_append, List.nil_append, handleTouchStart]
      · intro hlen
        simp at hlen
    · have hbig : handleTouchStart s ((q :: q2 :: qrest) ++ [p]) d = s :=
        handleTouchStart_big s _ d (by simp)
      rw [hbig]
      have hoff : s.isDragging = false := j2 (by simp)
      refine ⟨?_, fun _ => hoff, ?_, j4⟩
      · intro hd
        rw [hoff] at hd
        cases hd
      · intro hlen
        simp at hlen
  | move fingers s fingers2 d rect h hlen ih =>
    obtain ⟨j1, j2, j3, j4⟩ := ih
    have j4new : (handleTouchMove s fingers2 d rect).isDraggingProperty = none :=
      (touch_handlers_dragProp s env fingers2 [] [] d rect).2.1.trans j4
    rcases fingers2 with _ | ⟨t, _ | ⟨t2, _ | ⟨t3, trest⟩⟩⟩
    · have : handleTouchMove s [] d rect = s := rfl
      rw [this]
      exact ⟨j1, fun hx => by simp at hx, fun _ => j3 (by omega), j4⟩
    · obtain ⟨f1, f2⟩ := handleTouchMove_one_flags s t d rect
      refine ⟨?_, ?_, ?_, j4new⟩
      · intro hd
        rw [f2]
        exact j1 (f1 ▸ hd)
      · intro hx
        simp at hx
      · intro hx
        simp at hx
    · obtain ⟨f1, f2⟩ := handleTouchMove_two_flags s t t2 d rect
      have hoff : s.isDragging = false := j2 (by simp at hlen; omega)
      refine ⟨?_, ?_, ?_, j4new⟩
      · intro hd
        rw [f1, hoff] at hd
        cases hd
      · intro _
        rw [f1, hoff]
      · intro hx
        simp at hx
    · have : handleTouchMove s (t :: t2 :: t3 :: trest) d rect = s := rfl
      rw [this]
      have hoff : s.isDragging = false := j2 (by simp at hlen ⊢; omega)
      refine ⟨j1, fun _ => hoff, ?_, j4⟩
      intro hx
      simp at hx
  | lift fingers s remaining changed rect h hlt hch ih =>
    obtain ⟨j1, j2, j3, j4⟩ := ih
    have j4new : ((handleTouchEnd env s remaining changed rect).1).isDraggingProperty
        = none :=
      (touch_handlers_dragProp s env [] remaining changed 0 rect).2.2.trans j4
    rcases remaining with _ | ⟨r1, _ | ⟨r2, rrest⟩⟩
    · by_cases hd : s.isDragging
      · rcases changed with _ | ⟨c1, _ | ⟨c2, crest⟩⟩
        · refine ⟨?_, ?_, ?_, j4new⟩ <;>
            simp [handleTouchEnd, hd]
        · refine ⟨?_, ?_, ?_, j4new⟩ <;>
            · simp only [handleTouchEnd, hd, if_true]
              cases hfh : findHit env.checkList ⟨c1.x - rect.left, c1.y - rect.top⟩
                  s.viewport with
              | error e => simp [j1 hd]
              | ok r => simp
        · refine ⟨?_, ?_, ?_, j4new⟩ <;>
            simp [handleTouchEnd, hd]
      · simp only [Bool.not_eq_true] at hd
        refine ⟨?_, ?_, ?_, j4new⟩ <;>
          simp [handleTouchEnd, hd]
    · refine ⟨?_, ?_, ?_, j4new⟩ <;>
        simp [handleTouchEnd]
    · have : (handleTouchEnd env s (r1 :: r2 :: rrest) changed rect).1 = s := rfl
      rw [this]
      have hoff : s.isDragging = false := j2 (by simp at hlt ⊢; omega)
      refine ⟨j1, fun _ => hoff, ?_, j4⟩
      intro hx
      simp at hx

/-- Claim C6 as amended: in every state reachable by a well-formed touch
event sequence from the initial state, no two of the three gesture-mode
indicators — the panning flag `isDragging`, the marker-drag state
`isDraggingProperty`, and an armed pinch baseline `lastTouchDistance > 0` —
are simultaneously active (indeed a marker drag is never armed by touch
input).  Mouse input does not enjoy this: see the counterexample. -/
theorem C6_touch_single_mode (env : Env) (fingers : List Point) (s : EngineState)
    (h : TouchTrace env fingers s) :
    ¬(s.isDragging = true ∧ 0 < s.lastTouchDistance) ∧
    ¬(s.isDragging = true ∧ s.isDraggingProperty ≠ none) ∧
    ¬(s.isDraggingProperty ≠ none ∧ 0 < s.lastTouchDistance) := by
  obtain ⟨j1, j2, j3, j4⟩ := touchTrace_inv env fingers s h
  refine ⟨?_, ?_, ?_⟩
  · rintro ⟨hd, hpos⟩
    rw [j1 hd] at hpos
    exact lt_irrefl 0 hpos
  · rintro ⟨hd, hprop⟩
    exact hprop j4
  · rintro ⟨hprop, hpos⟩
    exact hprop j4

/-- Witness for the amended C6 at the empty trace. -/
theorem C6_touch_single_mode_witness :
    TouchTrace envA [] initState ∧
    (¬(initState.isDragging = true ∧ 0 < initState.lastTouchDistance) ∧
     ¬(initState.isDragging = true ∧ initState.isDraggingProperty ≠ none) ∧
     ¬(initState.isDraggingProperty ≠ none ∧ 0 < initState.lastTouchDistance)) :=
  ⟨.init, C6_touch_single_mode envA [] initState .init⟩

/-- Counterexample to claim C6: from the initial state, a mouse-down with no
modifier at (400, 400) (hitting nothing, so a pan starts) followed by a
second mouse-down with the modifier held at (100, 100) (over marker `A`,
so a marker drag starts) leaves the panning flag and the marker-drag state
active at the same time — two mouse-downs without an intervening mouse-up
occur with a two-button mouse. -/
theorem C6_counterexample :
    (handleMouseDown envA (handleMouseDown envA initState ⟨400, 400⟩ rect0 false)
        ⟨100, 100⟩ rect0 true).isDragging = true ∧
    (handleMouseDown envA (handleMouseDown envA initState ⟨400, 400⟩ rect0 false)
        ⟨100, 100⟩ rect0 true).isDraggingProperty = some "A" := by
  constructor <;>
    norm_num [handleMouseDown, envA, Env.checkList, propertiesToCheck, findHit,
      boxContains, initState, markerA, gA, rect0]

/-- Claim C7: a marker drag started by a modifier-held mouse-down whose hit
test resolves marker `p` at position `g` stores
`grabOffset = pointerScreenPos - toScreen(p.position)`; and while a drag for
id `id` is active (a truthy id) with a position callback registered, a mouse
move emits `id` with the new world position
`toWorld(pointerScreenPos - grabOffset)`, so the dragged marker's projected
screen position tracks the pointer displaced by the grab offset. -/
theorem C7_marker_drag (env : Env) (s s2 : EngineState) (client client2 : Point)
    (rect rect2 : Rect) (p : Property) (g : GridPos) (id : String)
    (hhit : findHit env.checkList ⟨client.x - rect.left, client.y - rect.top⟩
        s.viewport = .ok (some (p, g)))
    (hid : s2.isDraggingProperty = some id) (hid2 : id ≠ "")
    (hcb : env.hasPositionCallback = true) :
    handleMouseDown env s client rect true =
      { s with isDraggingProperty := some p.id,
               propertyDragOffset :=
                 ⟨(client.x - rect.left) - (toScreenP s.viewport ⟨g.x, g.y⟩).x,
                  (client.y - rect.top) - (toScreenP s.viewport ⟨g.x, g.y⟩).y⟩ } ∧
    handleMouseMove env s2 client2 rect2 =
      (s2, some (id, toWorldP s2.viewport
        ⟨(client2.x - rect2.left) - s2.propertyDragOffset.x,
         (client2.y - rect2.top) - s2.propertyDragOffset.y⟩)) := by
  constructor
  · simp only [handleMouseDown, hhit, toScreenP]
  · simp only [handleMouseMove, hid, hid2, hcb, and_true, ne_eq,
      not_false_iff, if_true, toWorldP]

/-- Concrete drag state for the C7 witness: marker `A` grabbed with offset
(10, 5). -/
def dragS2 : EngineState :=
  { initState with isDraggingProperty := some "A", propertyDragOffset := ⟨10, 5⟩ }

/-- Witness for C7: mouse-down with shift at (110, 105) over marker `A`
(grab offset (10, 5)), then a mouse move at (200, 200) during the drag. -/
theorem C7_marker_drag_witness :
    (findHit envAB.checkList ⟨110 - rect0.left, 105 - rect0.top⟩ initState.viewport
        = .ok (some (markerA, gA))) ∧
    dragS2.isDraggingProperty = some "A" ∧ ("A" : String) ≠ "" ∧
    envAB.hasPositionCallback = true ∧
    (handleMouseDown envAB initState ⟨110, 105⟩ rect0 true =
      { initState with
          isDraggingProperty := some markerA.id,
          propertyDragOffset :=
            ⟨(110 - rect0.left) - (toScreenP initState.viewport ⟨gA.x, gA.y⟩).x,
             (105 - rect0.top) - (toScreenP initState.viewport ⟨gA.x, gA.y⟩).y⟩ } ∧
     handleMouseMove envAB dragS2 ⟨200, 200⟩ rect0 =
      (dragS2, some ("A", toWorldP dragS2.viewport
        ⟨(200 - rect0.left) - dragS2.propertyDragOffset.x,
         (200 - rect0.top) - dragS2.propertyDragOffset.y⟩))) :=
  ⟨by norm_num [findHit, boxContains, envAB, Env.checkList, propertiesToCheck,
      markerA, markerB, gA, initState, rect0],
   rfl, by simp, rfl,
   C7_marker_drag envAB initState dragS2 ⟨110, 105⟩ ⟨200, 200⟩ rect0 rect0
     markerA gA "A"
     (by norm_num [findHit, boxContains, envAB, Env.checkList, propertiesToCheck,
        markerA, markerB, gA, initState, rect0])
     rfl (by simp) rfl⟩

/-- Counterexample to claim C8: a two-pointer move frame with the near-zero
stored baseline 1/1000000 (and true touch distance 2) is NOT suppressed:
the `> 0` guard passes, the frame divides by the near-zero baseline, and
the viewport scale jumps from 1 to the clamp bound 3. -/
theorem C8_counterexample :
    IsDistance ⟨0, 0⟩ ⟨2, 0⟩ 2 ∧
    (0:ℚ) < 1/1000000 ∧
    (handleTouchMove { initState with lastTouchDistance := 1/1000000 }
        [⟨0, 0⟩, ⟨2, 0⟩] 2 rect3).viewport.scale = 3 ∧
    ({ initState with lastTouchDistance := 1/1000000 } : EngineState).viewport.scale
      = 1 := by
  refine ⟨⟨by norm_num, by norm_num [distSq]⟩, by norm_num, ?_, rfl⟩
  norm_num [handleTouchMove, initState]

/-- Claim C8 as amended: a two-pointer move frame is suppressed exactly when
the stored baseline is zero (the guard is `lastTouchDistance > 0`): with a
zero baseline the frame leaves the viewport scale and offset unchanged and
only stores the new distance; a positive but near-zero baseline still
performs the (scale-clamped) zoom update. -/
theorem C8_zero_baseline (s : EngineState) (t1 t2 : Point) (d : ℚ) (rect : Rect)
    (h : s.lastTouchDistance = 0) :
    handleTouchMove s [t1, t2] d rect = { s with lastTouchDistance := d } := by
  simp [handleTouchMove, h]

/-- Witness for the amended C8 from the initial state (baseline 0). -/
theorem C8_zero_baseline_witness :
    initState.lastTouchDistance = 0 ∧
    handleTouchMove initState [⟨0, 0⟩, ⟨2, 0⟩] 2 rect3 =
      { initState with lastTouchDistance := 2 } :=
  ⟨rfl, C8_zero_baseline initState ⟨0, 0⟩ ⟨2, 0⟩ 2 rect3 rfl⟩

/-- Claim C10: with `showOnlyLeads` at its default value `true`, every
observable output of the engine — the rendered shape list, the state
produced by mouse-down, hover and pan handling by mouse move together with
its emitted drag position updates, the click selection emission, and the
tap handling of touch end with its selection emission — is a function of
the leads list, viewport, state, and pointer events only: two runs that
differ solely in the `properties` input produce identical outputs. -/
theorem C10_noninterference (props1 props2 leads : List Property) (cb : Bool)
    (sel hov : Option String) (v : Viewport) (w hgt : ℚ) (s : EngineState)
    (client : Point) (rect : Rect) (shift : Bool) (rem ch : List Point) :
    drawGrid true leads props1 sel hov v w hgt
      = drawGrid true leads props2 sel hov v w hgt ∧
    handleMouseDown ⟨props1, leads, true, cb⟩ s client rect shift
      = handleMouseDown ⟨props2, leads, true, cb⟩ s client rect shift ∧
    handleMouseMove ⟨props1, leads, true, cb⟩ s client rect
      = handleMouseMove ⟨props2, leads, true, cb⟩ s client rect ∧
    handleClick ⟨props1, leads, true, cb⟩ s client rect
      = handleClick ⟨props2, leads, true, cb⟩ s client rect ∧
    handleTouchEnd ⟨props1, leads, true, cb⟩ s rem ch rect
      = handleTouchEnd ⟨props2, leads, true, cb⟩ s rem ch rect :=
  ⟨rfl, rfl, rfl, rfl, rfl⟩

end HDIGrid
